import Mathlib

/-!
Verification of the configuration-merging utilities in
`tavern/testutils/pytesthook/util.py`: option registration
(`add_parser_options`), the cached global-config loader
(`load_global_cfg`) and the three-tier option resolver
(`get_option_generic`).

Python values flowing through this module (ini/cmdline option values,
YAML documents) are embedded as the inductive type `Value`; Python
dicts are association lists preserving insertion order; the external
collaborators (`load_global_config`, `format_keys`, `os.environ`) are
parameters; `functools.lru_cache` is explicit cache state.
-/

namespace Tavern

/-- A Python value as used by this module: `None`, strings, booleans,
integers, lists and (string-keyed, insertion-ordered) dicts. -/
inductive Value where
  | none : Value
  | str : String → Value
  | bool : Bool → Value
  | int : Int → Value
  | list : List Value → Value
  | dict : List (String × Value) → Value
deriving Repr

mutual

/-- Decidable equality on `Value` (written by hand: the nested
occurrences of `List` block automatic derivation). -/
def Value.decEq : (a b : Value) → Decidable (a = b)
  | .none, .none => isTrue rfl
  | .str x, .str y =>
      if h : x = y then isTrue (h ▸ rfl)
      else isFalse (fun hh => h (by injection hh))
  | .bool x, .bool y =>
      if h : x = y then isTrue (h ▸ rfl)
      else isFalse (fun hh => h (by injection hh))
  | .int x, .int y =>
      if h : x = y then isTrue (h ▸ rfl)
      else isFalse (fun hh => h (by injection hh))
  | .list x, .list y =>
      match Value.decEqList x y with
      | isTrue h => isTrue (h ▸ rfl)
      | isFalse h => isFalse (fun hh => h (by injection hh))
  | .dict x, .dict y =>
      match Value.decEqDict x y with
      | isTrue h => isTrue (h ▸ rfl)
      | isFalse h => isFalse (fun hh => h (by injection hh))
  | .none, .str _ => isFalse (fun h => nomatch h)
  | .none, .bool _ => isFalse (fun h => nomatch h)
  | .none, .int _ => isFalse (fun h => nomatch h)
  | .none, .list _ => isFalse (fun h => nomatch h)
  | .none, .dict _ => isFalse (fun h => nomatch h)
  | .str _, .none => isFalse (fun h => nomatch h)
  | .str _, .bool _ => isFalse (fun h => nomatch h)
  | .str _, .int _ => isFalse (fun h => nomatch h)
  | .str _, .list _ => isFalse (fun h => nomatch h)
  | .str _, .dict _ => isFalse (fun h => nomatch h)
  | .bool _, .none => isFalse (fun h => nomatch h)
  | .bool _, .str _ => isFalse (fun h => nomatch h)
  | .bool _, .int _ => isFalse (fun h => nomatch h)
  | .bool _, .list _ => isFalse (fun h => nomatch h)
  | .bool _, .dict _ => isFalse (fun h => nomatch h)
  | .int _, .none => isFalse (fun h => nomatch h)
  | .int _, .str _ => isFalse (fun h => nomatch h)
  | .int _, .bool _ => isFalse (fun h => nomatch h)
  | .int _, .list _ => isFalse (fun h => nomatch h)
  | .int _, .dict _ => isFalse (fun h => nomatch h)
  | .list _, .none => isFalse (fun h => nomatch h)
  | .list _, .str _ => isFalse (fun h => nomatch h)
  | .list _, .bool _ => isFalse (fun h => nomatch h)
  | .list _, .int _ => isFalse (fun h => nomatch h)
  | .list _, .dict _ => isFalse (fun h => nomatch h)
  | .dict _, .none => isFalse (fun h => nomatch h)
  | .dict _, .str _ => isFalse (fun h => nomatch h)
  | .dict _, .bool _ => isFalse (fun h => nomatch h)
  | .dict _, .int _ => isFalse (fun h => nomatch h)
  | .dict _, .list _ => isFalse (fun h => nomatch h)

/-- Decidable equality on lists of `Value`. -/
def Value.decEqList : (a b : List Value) → Decidable (a = b)
  | [], [] => isTrue rfl
  | [], _ :: _ => isFalse (fun h => nomatch h)
  | _ :: _, [] => isFalse (fun h => nomatch h)
  | x :: xs, y :: ys =>
      match Value.decEq x y with
      | isTrue h1 =>
          match Value.decEqList xs ys with
          | isTrue h2 => isTrue (h1 ▸ h2 ▸ rfl)
          | isFalse h2 => isFalse (fun hh => h2 (by injection hh))
      | isFalse h1 => isFalse (fun hh => h1 (by injection hh))

/-- Decidable equality on string-keyed association lists of `Value`. -/
def Value.decEqDict : (a b : List (String × Value)) → Decidable (a = b)
  | [], [] => isTrue rfl
  | [], _ :: _ => isFalse (fun h => nomatch h)
  | _ :: _, [] => isFalse (fun h => nomatch h)
  | (k, v) :: xs, (l, w) :: ys =>
      if hk : k = l then
        match Value.decEq v w with
        | isTrue hv =>
            match Value.decEqDict xs ys with
            | isTrue ht => isTrue (hk ▸ hv ▸ ht ▸ rfl)
            | isFalse ht => isFalse (fun hh => ht (by injection hh))
        | isFalse hv =>
            isFalse (fun hh => hv (by
              injection hh with hp ht
              exact congrArg Prod.snd hp))
      else
        isFalse (fun hh => hk (by
          injection hh with hp ht
          exact congrArg Prod.fst hp))

end

instance : DecidableEq Value := Value.decEq

instance {ε α : Type} [DecidableEq ε] [DecidableEq α] : DecidableEq (Except ε α) := fun x y =>
  match x, y with
  | Except.ok a, Except.ok b =>
      if h : a = b then isTrue (h ▸ rfl) else isFalse (fun hh => h (by injection hh))
  | Except.error a, Except.error b =>
      if h : a = b then isTrue (h ▸ rfl) else isFalse (fun hh => h (by injection hh))
  | Except.ok _, Except.error _ => isFalse (fun h => nomatch h)
  | Except.error _, Except.ok _ => isFalse (fun h => nomatch h)

/-- Python truthiness for `Value`. -/
def Value.truthy : Value → Bool
  | .none => false
  | .str s => !s.isEmpty
  | .bool b => b
  | .int n => n != 0
  | .list xs => !xs.isEmpty
  | .dict d => !d.isEmpty

/-- Python `x or y`: `x` if truthy, else `y`. -/
def pyOr (x y : Value) : Value := if x.truthy then x else y

/-- Python dict read (`d[k]` / `d.get(k)`): first binding for the key. -/
def dictGet : List (String × Value) → String → Option Value
  | [], _ => Option.none
  | (k, v) :: rest, key => if k = key then some v else dictGet rest key

/-- Python dict write (`d[k] = v`): replace the value in place if the
key exists (insertion order preserved), else append a new binding. -/
def dictSet : List (String × Value) → String → Value → List (String × Value)
  | [], key, val => [(key, val)]
  | (k, v) :: rest, key, val =>
      if k = key then (k, val) :: rest else (k, v) :: dictSet rest key val

/-- The two option stores of a `pytest.Config`: `getini` (persistent
ini file) and `getoption` (command line).  A missing value is reported
as `Value.none`, mirroring Python `None`. -/
structure PytestConfig where
  getini : String → Value
  getoption : String → Value

/-- Python `flag.replace("-", "_")`: with the single-character pattern
`"-"` this is exactly a character-wise map. -/
def replace_dashes (s : String) : String :=
  String.mk (s.data.map (fun c => if c = '-' then '_' else c))

/-- Resolver `get_option_generic(pytest_config, flag, default)`: ini value (under
the flag name with `-` replaced by `_`) if not `None`, else command-line
value (under the flag name unmodified) if not `None`, else `default`. -/
def get_option_generic (pytest_config : PytestConfig) (flag : String)
    (default : Value) : Value :=
  let ini_flag := replace_dashes flag
  let cli_flag := flag
  if pytest_config.getini ini_flag ≠ Value.none then
    pytest_config.getini ini_flag
  else if pytest_config.getoption cli_flag ≠ Value.none then
    pytest_config.getoption cli_flag
  else
    default

/-- Exceptions this module can raise.  `invalidConfiguration` is
`exceptions.InvalidConfigurationException`, carrying the allowed set
and the offending resolved value that the Python message interpolates;
`typeError` is the `TypeError` Python raises when the `+` on the two
path values is applied to a truthy non-list. -/
inductive TavernError where
  | invalidConfiguration (valid_keys : List String) (got : Value)
  | typeError
deriving DecidableEq, Repr

/-- Log severities used by this module. -/
inductive LogLevel where
  | debug
deriving DecidableEq, Repr

/-- One emitted log record. -/
structure LogEntry where
  level : LogLevel
  msg : String
deriving DecidableEq, Repr

/-- The external collaborators of `load_global_cfg`:
`tavern.util.general.load_global_config` (ordered path list → merged
document), `tavern.util.dict_util.format_keys` (value × context →
substituted value) and the process environment `os.environ`. -/
structure Collaborators where
  load_global_config : List Value → List (String × Value)
  format_keys : Value → Value → Value
  environ : List (String × String)

/-- Path collection step of `load_global_cfg`: ini paths
(`getini("tavern-global-cfg") or []`) followed by command-line paths
(`getoption("tavern_global_cfg") or []`), concatenated with `+`. -/
def collect_paths (pytest_config : PytestConfig) : Except TavernError (List Value) :=
  let ini_global_cfg_paths := pyOr (pytest_config.getini "tavern-global-cfg") (Value.list [])
  let cmdline_global_cfg_paths := pyOr (pytest_config.getoption "tavern_global_cfg") (Value.list [])
  match ini_global_cfg_paths, cmdline_global_cfg_paths with
  | Value.list a, Value.list b => Except.ok (a ++ b)
  | _, _ => Except.error TavernError.typeError

/-- The `tavern_box` built for substitution:
`Box({"tavern": {"env_vars": dict(os.environ)}})`. -/
def tavern_box (environ : List (String × String)) : Value :=
  Value.dict [("tavern", Value.dict [("env_vars",
    Value.dict (environ.map (fun p => (p.1, Value.str p.2))))])]

/-- The `variables` substitution step of `load_global_cfg`: on
`KeyError` log at debug and leave the document alone, otherwise replace
`global_cfg["variables"]` by `format_keys(loaded_variables, tavern_box)`. -/
def format_variables (co : Collaborators) (global_cfg : List (String × Value)) :
    List (String × Value) × List LogEntry :=
  match dictGet global_cfg "variables" with
  | Option.none =>
      (global_cfg, [⟨LogLevel.debug, "Nothing to format in global config files"⟩])
  | some loaded_variables =>
      (dictSet global_cfg "variables"
        (co.format_keys loaded_variables (tavern_box co.environ)), [])

/-- The allowed `strict` entries (`valid_keys` in the source). -/
def valid_keys : List String := ["body", "headers", "redirect_query_params"]

/-- The `strict` validation of `load_global_cfg`: when the resolved
value is a list, every entry must be one of `valid_keys`, else an
`InvalidConfigurationException` carrying the allowed set and the
resolved value is raised. -/
def check_strict (strict : Value) : Except TavernError Unit :=
  match strict with
  | Value.list items =>
      if items.any (fun i => !((valid_keys.map Value.str).contains i)) then
        Except.error (TavernError.invalidConfiguration valid_keys strict)
      else
        Except.ok ()
  | _ => Except.ok ()

/-- Backend resolution for one backend name `b`:
`ini_opt = getini("tavern-<b>-backend")`,
`cli_opt = getoption("tavern_<b>_backend")`, and the command-line value
is used only when truthy and different from the ini value. -/
def resolve_backend (pytest_config : PytestConfig) (b : String) : Value :=
  let ini_opt := pytest_config.getini ("tavern-" ++ b ++ "-backend")
  let cli_opt := pytest_config.getoption ("tavern_" ++ b ++ "_backend")
  if cli_opt.truthy && (cli_opt != ini_opt) then cli_opt else ini_opt

/-- The part of `load_global_cfg` after the external file load,
operating on the merged document: `variables` substitution, `strict`
validation and assignment, `backends` resolution, final debug log. -/
def load_global_cfg_rest (co : Collaborators) (pytest_config : PytestConfig)
    (global_cfg0 : List (String × Value)) :
    Except TavernError (List (String × Value) × List LogEntry) :=
  let step1 := format_variables co global_cfg0
  let strict := get_option_generic pytest_config "tavern-strict" (Value.list [])
  match check_strict strict with
  | Except.error e => Except.error e
  | Except.ok _ =>
      let global_cfg2 := dictSet step1.1 "strict" strict
      let backends := Value.dict [("http", resolve_backend pytest_config "http"),
                                  ("mqtt", resolve_backend pytest_config "mqtt")]
      let global_cfg3 := dictSet global_cfg2 "backends" backends
      Except.ok (global_cfg3, step1.2 ++ [⟨LogLevel.debug, "Global config: %s"⟩])

/-- One (uncached) evaluation of `load_global_cfg`: collect the path
list, hand it to the external loader, then post-process the merged
document. -/
def load_global_cfg_impl (co : Collaborators) (pytest_config : PytestConfig) :
    Except TavernError (List (String × Value) × List LogEntry) :=
  match collect_paths pytest_config with
  | Except.error e => Except.error e
  | Except.ok all_paths =>
      load_global_cfg_rest co pytest_config (co.load_global_config all_paths)

/-- State of a `functools.lru_cache` wrapper: memo table keyed by the
argument (Python keys on the handle object) plus a count of how many
times the underlying function has actually run. -/
structure CacheState (α β : Type) where
  cache : List (α × β)
  loadCount : Nat

/-- Memo-table lookup. -/
def cacheLookup {α β : Type} [DecidableEq α] : List (α × β) → α → Option β
  | [], _ => Option.none
  | (k, v) :: rest, key => if k = key then some v else cacheLookup rest key

/-- One call through an `lru_cache` wrapper: a hit returns the stored
result untouched, a miss runs the wrapped function once, stores the
result and bumps the run counter. -/
def lru_cache_call {α β : Type} [DecidableEq α] (compute : α → β)
    (st : CacheState α β) (arg : α) : β × CacheState α β :=
  match cacheLookup st.cache arg with
  | some r => (r, st)
  | Option.none =>
      let r := compute arg
      (r, ⟨st.cache ++ [(arg, r)], st.loadCount + 1⟩)

/-- Cached `load_global_cfg` as exposed: `load_global_cfg_impl` behind
`@lru_cache()`.  Handles (`pytest_config` object identities) are
numbered; `configs` maps each handle to its option stores. -/
def load_global_cfg (co : Collaborators) (configs : Nat → PytestConfig)
    (st : CacheState Nat (Except TavernError (List (String × Value) × List LogEntry)))
    (handle : Nat) :
    (Except TavernError (List (String × Value) × List LogEntry)) ×
      CacheState Nat (Except TavernError (List (String × Value) × List LogEntry)) :=
  lru_cache_call (fun h => load_global_cfg_impl co (configs h)) st handle

/-- One registered command-line option, with the keyword arguments the
source passes to `parser_addoption`. -/
structure ParserOption where
  name : String
  help : String
  required : Option Bool := Option.none
  nargs : Option Value := Option.none
  default : Value := Value.none
  action : Option String := Option.none
  choices : Option (List String) := Option.none
deriving DecidableEq, Repr

/-- Registration `add_parser_options(parser_addoption, with_defaults=True)`: the six
options it registers, in order, with their keyword arguments. -/
def add_parser_options (with_defaults : Bool := true) : List ParserOption :=
  [ { name := "--tavern-global-cfg",
      help := "One or more global configuration files to include in every test",
      required := some false, nargs := some (Value.str "+") },
    { name := "--tavern-http-backend", help := "Which http backend to use",
      default := if with_defaults then Value.str "requests" else Value.none },
    { name := "--tavern-mqtt-backend", help := "Which mqtt backend to use",
      default := if with_defaults then Value.str "paho-mqtt" else Value.none },
    { name := "--tavern-strict", help := "Default response matching strictness",
      default := Value.none, nargs := some (Value.str "+"),
      choices := some ["body", "headers", "redirect_query_params"] },
    { name := "--tavern-beta-new-traceback", help := "Use new traceback style (beta)",
      default := Value.bool false, action := some "store_true" },
    { name := "--tavern-file-path-regex",
      help := "Regex to search for Tavern YAML test files",
      default := Value.str ".+\\.tavern\\.ya?ml$", action := some "store",
      nargs := some (Value.int 1) } ]

/-- Look an option up by its registered name. -/
def findParserOption (opts : List ParserOption) (n : String) : Option ParserOption :=
  opts.find? (fun o => o.name == n)

/-- Success test for an `Except` result. -/
def isOk {ε α : Type} : Except ε α → Bool
  | Except.ok _ => true
  | Except.error _ => false

/-- A store value that is either absent (`None`) or an honest list:
what `getini`/`getoption` report for a `nargs="+"` path option. -/
def listOrAbsent : Value → Bool
  | Value.none => true
  | Value.list _ => true
  | _ => false

/-! Helper lemmas shared by the claim theorems. -/

theorem pyOr_emptyList_of_listOrAbsent (v : Value) (h : listOrAbsent v = true) :
    ∃ xs, pyOr v (Value.list []) = Value.list xs := by
  cases v with
  | none => exact ⟨[], rfl⟩
  | list xs =>
      by_cases hxs : xs.isEmpty
      · exact ⟨[], by simp [pyOr, Value.truthy, hxs]⟩
      · exact ⟨xs, by simp [pyOr, Value.truthy, hxs]⟩
  | str s => simp [listOrAbsent] at h
  | bool b => simp [listOrAbsent] at h
  | int n => simp [listOrAbsent] at h
  | dict d => simp [listOrAbsent] at h

theorem collect_paths_isOk (c : PytestConfig)
    (hini : listOrAbsent (c.getini "tavern-global-cfg") = true)
    (hcli : listOrAbsent (c.getoption "tavern_global_cfg") = true) :
    ∃ paths, collect_paths c = Except.ok paths := by
  obtain ⟨xs, hxs⟩ := pyOr_emptyList_of_listOrAbsent _ hini
  obtain ⟨ys, hys⟩ := pyOr_emptyList_of_listOrAbsent _ hcli
  exact ⟨xs ++ ys, by unfold collect_paths; rw [hxs, hys]⟩

theorem dictGet_dictSet_same (d : List (String × Value)) (k : String) (v : Value) :
    dictGet (dictSet d k v) k = some v := by
  induction d with
  | nil => simp [dictGet, dictSet]
  | cons hd tl ih =>
      obtain ⟨k0, v0⟩ := hd
      by_cases hk : k0 = k
      · simp [dictGet, dictSet, hk]
      · simp [dictGet, dictSet, hk, ih]

theorem dictGet_dictSet_other (d : List (String × Value)) (k k' : String) (v : Value)
    (h : k' ≠ k) : dictGet (dictSet d k v) k' = dictGet d k' := by
  induction d with
  | nil => simp [dictGet, dictSet, Ne.symm h]
  | cons hd tl ih =>
      obtain ⟨k0, v0⟩ := hd
      by_cases hk : k0 = k
      · subst hk
        simp [dictGet, dictSet, Ne.symm h]
      · simp only [dictSet, if_neg hk]
        by_cases hk' : k0 = k'
        · simp [dictGet, hk']
        · simp [dictGet, hk', ih]

theorem load_global_cfg_rest_of_ok (co : Collaborators) (c : PytestConfig)
    (d0 : List (String × Value))
    (hstrict : check_strict (get_option_generic c "tavern-strict" (Value.list []))
      = Except.ok ()) :
    load_global_cfg_rest co c d0 =
      Except.ok
        (dictSet
          (dictSet (format_variables co d0).1 "strict"
            (get_option_generic c "tavern-strict" (Value.list [])))
          "backends"
          (Value.dict [("http", resolve_backend c "http"),
                       ("mqtt", resolve_backend c "mqtt")]),
         (format_variables co d0).2 ++ [⟨LogLevel.debug, "Global config: %s"⟩]) := by
  simp [load_global_cfg_rest, hstrict]

theorem load_global_cfg_rest_of_error (co : Collaborators) (c : PytestConfig)
    (d0 : List (String × Value)) (e : TavernError)
    (hstrict : check_strict (get_option_generic c "tavern-strict" (Value.list []))
      = Except.error e) :
    load_global_cfg_rest co c d0 = Except.error e := by
  simp [load_global_cfg_rest, hstrict]

theorem load_global_cfg_impl_eq (co : Collaborators) (c : PytestConfig)
    (paths : List Value) (hp : collect_paths c = Except.ok paths) :
    load_global_cfg_impl co c = load_global_cfg_rest co c (co.load_global_config paths) := by
  unfold load_global_cfg_impl
  rw [hp]

theorem cacheLookup_append_self {α β : Type} [DecidableEq α]
    (l : List (α × β)) (k : α) (v : β) (h : cacheLookup l k = Option.none) :
    cacheLookup (l ++ [(k, v)]) k = some v := by
  induction l with
  | nil => simp [cacheLookup]
  | cons hd tl ih =>
      obtain ⟨k0, v0⟩ := hd
      by_cases hk : k0 = k
      · simp [cacheLookup, hk] at h
      · simp [cacheLookup, hk] at h ⊢
        exact ih h

/-- Store with only an ini value (an explicit empty list) for the
strict flag. -/
def iniOnlyConfig : PytestConfig :=
  { getini := fun k => if k = "tavern_strict" then Value.list [] else Value.none,
    getoption := fun _ => Value.none }

/-- Store with only a command-line value for the strict flag. -/
def cliOnlyConfig : PytestConfig :=
  { getini := fun _ => Value.none,
    getoption := fun k => if k = "tavern-strict" then Value.str "cli" else Value.none }

/-- Store reporting no value anywhere. -/
def emptyConfig : PytestConfig :=
  { getini := fun _ => Value.none, getoption := fun _ => Value.none }

/-- Store agreeing with `iniOnlyConfig` on the two keys the resolver
reads for `tavern-strict` but differing elsewhere. -/
def hybridConfig : PytestConfig :=
  { getini := fun k => if k = "tavern_strict" then Value.list [] else Value.none,
    getoption := fun k => if k = "unrelated" then Value.str "x" else Value.none }

/-- C1: the three-tier resolver returns the ini value whenever the ini
store reports a non-`None` value (an explicit empty list or `False` is
usable and returned as-is), else the command-line value when that is
non-`None`, else exactly the caller-supplied default, for every
default including the empty list and `False`. -/
theorem get_option_generic_three_tier (pytest_config : PytestConfig)
    (flag : String) (default : Value) :
    (pytest_config.getini (replace_dashes flag) ≠ Value.none →
       get_option_generic pytest_config flag default
         = pytest_config.getini (replace_dashes flag)) ∧
    (pytest_config.getini (replace_dashes flag) = Value.none →
       pytest_config.getoption flag ≠ Value.none →
       get_option_generic pytest_config flag default
         = pytest_config.getoption flag) ∧
    (pytest_config.getini (replace_dashes flag) = Value.none →
       pytest_config.getoption flag = Value.none →
       get_option_generic pytest_config flag default = default) := by
  constructor
  · intro h
    simp [get_option_generic, h]
  constructor
  · intro h1 h2
    simp [get_option_generic, h1, h2]
  · intro h1 h2
    simp [get_option_generic, h1, h2]

/-- Concrete instantiation of the three branches of the resolver: an
explicit empty ini list is returned, a command-line value is returned
when the ini store has none, and with neither set the default (here
the boolean `False`) comes back unchanged. -/
theorem get_option_generic_three_tier_witness :
    get_option_generic iniOnlyConfig "tavern-strict" (Value.bool true) = Value.list [] ∧
    get_option_generic cliOnlyConfig "tavern-strict" (Value.bool true) = Value.str "cli" ∧
    get_option_generic emptyConfig "tavern-strict" (Value.bool false) = Value.bool false :=
  ⟨((get_option_generic_three_tier iniOnlyConfig "tavern-strict" (Value.bool true)).1
      (by decide)).trans (by decide),
   ((get_option_generic_three_tier cliOnlyConfig "tavern-strict" (Value.bool true)).2.1
      (by decide) (by decide)).trans (by decide),
   (get_option_generic_three_tier emptyConfig "tavern-strict" (Value.bool false)).2.2
      (by decide) (by decide)⟩

/-- C9: the resolver reads the ini store only at the flag name with
every dash replaced by an underscore and the command-line store only
at the unmodified flag name; for the flag `tavern-strict` the ini key
is `tavern_strict` and the command-line key is `tavern-strict`. -/
theorem get_option_generic_lookup_keys (flag : String) (default : Value)
    (c c' : PytestConfig)
    (hini : c.getini (replace_dashes flag) = c'.getini (replace_dashes flag))
    (hcli : c.getoption flag = c'.getoption flag) :
    get_option_generic c flag default = get_option_generic c' flag default ∧
    replace_dashes "tavern-strict" = "tavern_strict" ∧
    (∀ (cfg : PytestConfig) (d : Value),
       get_option_generic cfg "tavern-strict" d =
         if cfg.getini "tavern_strict" ≠ Value.none then cfg.getini "tavern_strict"
         else if cfg.getoption "tavern-strict" ≠ Value.none then cfg.getoption "tavern-strict"
         else d) := by
  refine ⟨?_, by decide, ?_⟩
  · simp [get_option_generic, hini, hcli]
  · intro cfg d
    simp only [get_option_generic,
      show replace_dashes "tavern-strict" = "tavern_strict" from by decide]

/-- Concrete instantiation: two stores agreeing at `tavern_strict`
(ini) and `tavern-strict` (command line) resolve identically, and the
dash-to-underscore key mapping is exhibited. -/
theorem get_option_generic_lookup_keys_witness :
    get_option_generic iniOnlyConfig "tavern-strict" (Value.bool true)
      = get_option_generic hybridConfig "tavern-strict" (Value.bool true) ∧
    replace_dashes "tavern-strict" = "tavern_strict" :=
  ⟨(get_option_generic_lookup_keys "tavern-strict" (Value.bool true) iniOnlyConfig hybridConfig
      (by decide) (by decide)).1,
   (get_option_generic_lookup_keys "tavern-strict" (Value.bool true) iniOnlyConfig hybridConfig
      (by decide) (by decide)).2.1⟩

/-- C10: in backend resolution a falsy command-line value (`None` or
the empty string) never overrides the ini value, a command-line value
equal to the ini value leaves the ini value in use, and the
command-line value is stored exactly when truthy and different. -/
theorem resolve_backend_cli_override (c : PytestConfig) (b : String) :
    ((c.getoption ("tavern_" ++ b ++ "_backend") = Value.none ∨
        c.getoption ("tavern_" ++ b ++ "_backend") = Value.str "") →
       resolve_backend c b = c.getini ("tavern-" ++ b ++ "-backend")) ∧
    (c.getoption ("tavern_" ++ b ++ "_backend")
        = c.getini ("tavern-" ++ b ++ "-backend") →
       resolve_backend c b = c.getini ("tavern-" ++ b ++ "-backend")) ∧
    ((c.getoption ("tavern_" ++ b ++ "_backend")).truthy = true →
       c.getoption ("tavern_" ++ b ++ "_backend")
         ≠ c.getini ("tavern-" ++ b ++ "-backend") →
       resolve_backend c b = c.getoption ("tavern_" ++ b ++ "_backend")) := by
  unfold resolve_backend
  refine ⟨?_, ?_, ?_⟩
  · rintro (h | h) <;> simp [h, Value.truthy, String.isEmpty]
  · intro h
    simp [h]
  · intro h1 h2
    simp [h1, h2]

/-- Ini `requests` with no command-line value resolves to `requests`;
equal values leave the ini value; ini `requests` with command-line
`custom` resolves to `custom`. -/
def backendConfig : PytestConfig :=
  { getini := fun k =>
      if k = "tavern-http-backend" then Value.str "requests"
      else if k = "tavern-mqtt-backend" then Value.str "requests"
      else Value.none,
    getoption := fun k =>
      if k = "tavern_mqtt_backend" then Value.str "custom"
      else Value.none }

/-- Concrete instantiation of all three backend-override branches. -/
theorem resolve_backend_cli_override_witness :
    resolve_backend backendConfig "http" = Value.str "requests" ∧
    resolve_backend backendConfig "fake" = Value.none ∧
    resolve_backend backendConfig "mqtt" = Value.str "custom" :=
  ⟨((resolve_backend_cli_override backendConfig "http").1 (Or.inl (by decide))).trans
      (by decide),
   ((resolve_backend_cli_override backendConfig "fake").2.1 (by decide)).trans (by decide),
   ((resolve_backend_cli_override backendConfig "mqtt").2.2 (by decide) (by decide)).trans
      (by decide)⟩

/-- C7: option registration gives `--tavern-http-backend` default
`requests` and `--tavern-mqtt-backend` default `paho-mqtt` when
`with_defaults` is true and `None` when it is false, and every other
registered option is independent of `with_defaults`. -/
theorem add_parser_options_backend_defaults (with_defaults : Bool) :
    (findParserOption (add_parser_options with_defaults) "--tavern-http-backend").map
        ParserOption.default
      = some (if with_defaults then Value.str "requests" else Value.none) ∧
    (findParserOption (add_parser_options with_defaults) "--tavern-mqtt-backend").map
        ParserOption.default
      = some (if with_defaults then Value.str "paho-mqtt" else Value.none) ∧
    (∀ o ∈ add_parser_options with_defaults,
       o.name ≠ "--tavern-http-backend" → o.name ≠ "--tavern-mqtt-backend" →
       o ∈ add_parser_options true ∧ o ∈ add_parser_options false) := by
  cases with_defaults <;> decide

/-- One of the non-backend options registered without defaults. -/
def beta_traceback_option : ParserOption :=
  { name := "--tavern-beta-new-traceback", help := "Use new traceback style (beta)",
    default := Value.bool false, action := some "store_true" }

/-- Concrete instantiation: the traceback flag is registered
identically whether or not defaults are enabled. -/
theorem add_parser_options_backend_defaults_witness :
    beta_traceback_option ∈ add_parser_options true ∧
    beta_traceback_option ∈ add_parser_options false :=
  (add_parser_options_backend_defaults false).2.2 beta_traceback_option
    (by decide) (by decide) (by decide)

/-- Collaborators whose loader yields an empty document and whose
formatter is the identity. -/
def trivialCollaborators : Collaborators :=
  { load_global_config := fun _ => [],
    format_keys := fun v _ => v,
    environ := [] }

/-- C4: behind the `lru_cache` wrapper a first call on a fresh handle
runs the underlying loader exactly once (the run counter rises by
one), and a second call with the same handle is a cache hit returning
the identical stored result with the whole cache state, run counter
included, unchanged. -/
theorem load_global_cfg_cached_once (co : Collaborators) (configs : Nat → PytestConfig)
    (st : CacheState Nat (Except TavernError (List (String × Value) × List LogEntry)))
    (handle : Nat) (hfresh : cacheLookup st.cache handle = Option.none) :
    (load_global_cfg co configs st handle).1 = load_global_cfg_impl co (configs handle) ∧
    (load_global_cfg co configs st handle).2.loadCount = st.loadCount + 1 ∧
    load_global_cfg co configs (load_global_cfg co configs st handle).2 handle
      = load_global_cfg co configs st handle := by
  have h1 : load_global_cfg co configs st handle
      = (load_global_cfg_impl co (configs handle),
         ⟨st.cache ++ [(handle, load_global_cfg_impl co (configs handle))],
          st.loadCount + 1⟩) := by
    unfold load_global_cfg lru_cache_call
    rw [hfresh]
  refine ⟨by rw [h1], by rw [h1], ?_⟩
  rw [h1]
  unfold load_global_cfg lru_cache_call
  rw [cacheLookup_append_self st.cache handle _ hfresh]

/-- Concrete instantiation of the cache contract on a fresh cache. -/
theorem load_global_cfg_cached_once_witness :
    (load_global_cfg trivialCollaborators (fun _ => emptyConfig) ⟨[], 0⟩ 0).1
      = load_global_cfg_impl trivialCollaborators emptyConfig ∧
    (load_global_cfg trivialCollaborators (fun _ => emptyConfig) ⟨[], 0⟩ 0).2.loadCount = 1 ∧
    load_global_cfg trivialCollaborators (fun _ => emptyConfig)
        (load_global_cfg trivialCollaborators (fun _ => emptyConfig) ⟨[], 0⟩ 0).2 0
      = load_global_cfg trivialCollaborators (fun _ => emptyConfig) ⟨[], 0⟩ 0 :=
  load_global_cfg_cached_once trivialCollaborators (fun _ => emptyConfig) ⟨[], 0⟩ 0 rfl

/-- C6: the external loader receives exactly the ini-supplied path
list followed by the command-line path list appended after it
(command-line paths are additive here, never replacing ini paths), and
a missing value from either source contributes the empty list. -/
theorem load_global_cfg_paths_additive (co : Collaborators) (c : PytestConfig)
    (a b : List Value)
    (hini : c.getini "tavern-global-cfg" = Value.list a ∨
      (c.getini "tavern-global-cfg" = Value.none ∧ a = []))
    (hcli : c.getoption "tavern_global_cfg" = Value.list b ∨
      (c.getoption "tavern_global_cfg" = Value.none ∧ b = [])) :
    collect_paths c = Except.ok (a ++ b) ∧
    load_global_cfg_impl co c
      = load_global_cfg_rest co c (co.load_global_config (a ++ b)) := by
  have hpa : pyOr (c.getini "tavern-global-cfg") (Value.list []) = Value.list a := by
    rcases hini with h | ⟨h, rfl⟩
    · rw [h]
      by_cases ha : a.isEmpty
      · have : a = [] := by simpa using ha
        subst this
        simp [pyOr, Value.truthy]
      · simp [pyOr, Value.truthy, ha]
    · simp [h, pyOr, Value.truthy]
  have hpb : pyOr (c.getoption "tavern_global_cfg") (Value.list []) = Value.list b := by
    rcases hcli with h | ⟨h, rfl⟩
    · rw [h]
      by_cases hb : b.isEmpty
      · have : b = [] := by simpa using hb
        subst this
        simp [pyOr, Value.truthy]
      · simp [pyOr, Value.truthy, hb]
    · simp [h, pyOr, Value.truthy]
  have hcp : collect_paths c = Except.ok (a ++ b) := by
    simp [collect_paths, hpa, hpb]
  exact ⟨hcp, load_global_cfg_impl_eq co c (a ++ b) hcp⟩

/-- Store supplying one path from the ini file and one from the
command line. -/
def pathsConfig : PytestConfig :=
  { getini := fun k =>
      if k = "tavern-global-cfg" then Value.list [Value.str "ini.yaml"] else Value.none,
    getoption := fun k =>
      if k = "tavern_global_cfg" then Value.list [Value.str "cli.yaml"] else Value.none }

/-- Concrete instantiation: the ini path comes first, the command-line
path is appended after it. -/
theorem load_global_cfg_paths_additive_witness :
    collect_paths pathsConfig
      = Except.ok [Value.str "ini.yaml", Value.str "cli.yaml"] :=
  ((load_global_cfg_paths_additive trivialCollaborators pathsConfig
      [Value.str "ini.yaml"] [Value.str "cli.yaml"]
      (Or.inl (by decide)) (Or.inl (by decide))).1).trans (by decide)

theorem check_strict_list (items : List Value) :
    check_strict (Value.list items) =
      if (items.any fun j => !((valid_keys.map Value.str).contains j)) = true then
        Except.error (TavernError.invalidConfiguration valid_keys (Value.list items))
      else Except.ok () := rfl

/-- C2: with `strict` resolved through the three-tier resolver with
empty-list default, a resolved list containing any entry outside
`valid_keys` makes `load_global_cfg` raise the configuration error
carrying the allowed set and the offending resolved values instead of
returning a settings object, while a list of only allowed entries
succeeds. -/
theorem load_global_cfg_strict_validation (co : Collaborators) (c : PytestConfig)
    (hini : listOrAbsent (c.getini "tavern-global-cfg") = true)
    (hcli : listOrAbsent (c.getoption "tavern_global_cfg") = true)
    (items : List Value)
    (hres : get_option_generic c "tavern-strict" (Value.list []) = Value.list items) :
    ((∃ i ∈ items, i ∉ valid_keys.map Value.str) →
       load_global_cfg_impl co c
         = Except.error (TavernError.invalidConfiguration valid_keys (Value.list items))) ∧
    ((∀ i ∈ items, i ∈ valid_keys.map Value.str) →
       isOk (load_global_cfg_impl co c) = true) := by
  obtain ⟨paths, hp⟩ := collect_paths_isOk c hini hcli
  rw [load_global_cfg_impl_eq co c paths hp]
  constructor
  · rintro ⟨i, hi, hnotin⟩
    have hbad : check_strict (get_option_generic c "tavern-strict" (Value.list []))
        = Except.error (TavernError.invalidConfiguration valid_keys (Value.list items)) := by
      have hcond : (items.any fun j => !((valid_keys.map Value.str).contains j)) = true :=
        List.any_eq_true.mpr ⟨i, hi, by simpa using hnotin⟩
      rw [hres, check_strict_list, if_pos hcond]
    rw [load_global_cfg_rest_of_error co c _ _ hbad]
  · intro hall
    have hok : check_strict (get_option_generic c "tavern-strict" (Value.list []))
        = Except.ok () := by
      have hcond : ¬((items.any fun j => !((valid_keys.map Value.str).contains j)) = true) := by
        intro hcontra
        obtain ⟨i, hi, hbad⟩ := List.any_eq_true.mp hcontra
        have hni : i ∉ valid_keys.map Value.str := by simpa using hbad
        exact hni (hall i hi)
      rw [hres, check_strict_list, if_neg hcond]
    rw [load_global_cfg_rest_of_ok co c _ hok]
    rfl

/-- Store whose ini strict list holds a value outside the allowed set. -/
def invalidStrictConfig : PytestConfig :=
  { getini := fun k =>
      if k = "tavern_strict" then Value.list [Value.str "nope"] else Value.none,
    getoption := fun _ => Value.none }

/-- Store whose ini strict list holds only allowed values. -/
def validStrictConfig : PytestConfig :=
  { getini := fun k =>
      if k = "tavern_strict" then Value.list [Value.str "body"] else Value.none,
    getoption := fun _ => Value.none }

/-- Concrete instantiation: strict `["nope"]` raises the configuration
error naming the allowed set and the offending value, strict
`["body"]` succeeds. -/
theorem load_global_cfg_strict_validation_witness :
    load_global_cfg_impl trivialCollaborators invalidStrictConfig
      = Except.error
          (TavernError.invalidConfiguration valid_keys (Value.list [Value.str "nope"])) ∧
    isOk (load_global_cfg_impl trivialCollaborators validStrictConfig) = true :=
  ⟨(load_global_cfg_strict_validation trivialCollaborators invalidStrictConfig
      (by decide) (by decide) [Value.str "nope"] (by decide)).1
      (by decide : ∃ i ∈ [Value.str "nope"], i ∉ valid_keys.map Value.str),
   (load_global_cfg_strict_validation trivialCollaborators validStrictConfig
      (by decide) (by decide) [Value.str "body"] (by decide)).2
      (by decide)⟩

theorem resolve_backend_present_spec (c : PytestConfig) (b : String)
    (hb : c.getoption ("tavern_" ++ b ++ "_backend") = Value.none ∨
          (c.getoption ("tavern_" ++ b ++ "_backend")).truthy = true) :
    resolve_backend c b =
      (if c.getoption ("tavern_" ++ b ++ "_backend") ≠ Value.none ∧
          c.getoption ("tavern_" ++ b ++ "_backend")
            ≠ c.getini ("tavern-" ++ b ++ "-backend")
       then c.getoption ("tavern_" ++ b ++ "_backend")
       else c.getini ("tavern-" ++ b ++ "-backend")) := by
  unfold resolve_backend
  rcases hb with h | h
  · simp [h, Value.truthy]
  · by_cases heq : c.getoption ("tavern_" ++ b ++ "_backend")
        = c.getini ("tavern-" ++ b ++ "-backend")
    · simp [heq]
    · have hne : c.getoption ("tavern_" ++ b ++ "_backend") ≠ Value.none := by
        intro h0
        rw [h0] at h
        simp [Value.truthy] at h
      simp [h, heq, hne]

/-- C3: on success the returned settings object stores under
`backends` the independent per-backend resolutions for `http` and
`mqtt`: the ini value is the baseline, and a present command-line
value differing from it is stored instead. -/
theorem load_global_cfg_backends (co : Collaborators) (c : PytestConfig)
    (hini : listOrAbsent (c.getini "tavern-global-cfg") = true)
    (hcli : listOrAbsent (c.getoption "tavern_global_cfg") = true)
    (hstrict : check_strict (get_option_generic c "tavern-strict" (Value.list []))
      = Except.ok ())
    (hbh : c.getoption "tavern_http_backend" = Value.none ∨
      (c.getoption "tavern_http_backend").truthy = true)
    (hbm : c.getoption "tavern_mqtt_backend" = Value.none ∨
      (c.getoption "tavern_mqtt_backend").truthy = true) :
    isOk (load_global_cfg_impl co c) = true ∧
    (∀ d logs, load_global_cfg_impl co c = Except.ok (d, logs) →
       dictGet d "backends" = some (Value.dict
         [("http",
           if c.getoption "tavern_http_backend" ≠ Value.none ∧
              c.getoption "tavern_http_backend" ≠ c.getini "tavern-http-backend"
           then c.getoption "tavern_http_backend"
           else c.getini "tavern-http-backend"),
          ("mqtt",
           if c.getoption "tavern_mqtt_backend" ≠ Value.none ∧
              c.getoption "tavern_mqtt_backend" ≠ c.getini "tavern-mqtt-backend"
           then c.getoption "tavern_mqtt_backend"
           else c.getini "tavern-mqtt-backend")])) := by
  obtain ⟨paths, hp⟩ := collect_paths_isOk c hini hcli
  rw [load_global_cfg_impl_eq co c paths hp, load_global_cfg_rest_of_ok co c _ hstrict]
  constructor
  · rfl
  · intro d logs h
    have hd :
        dictSet
          (dictSet (format_variables co (co.load_global_config paths)).1 "strict"
            (get_option_generic c "tavern-strict" (Value.list [])))
          "backends"
          (Value.dict [("http", resolve_backend c "http"),
                       ("mqtt", resolve_backend c "mqtt")]) = d := by
      injection h with h'
      exact congrArg Prod.fst h'
    rw [← hd, dictGet_dictSet_same,
      resolve_backend_present_spec c "http" hbh,
      resolve_backend_present_spec c "mqtt" hbm]
    rfl

/-- Concrete instantiation: ini `requests` with no command-line value
resolves to `requests`; ini `requests` with command-line `custom`
resolves to `custom`; both are stored under `backends`. -/
theorem load_global_cfg_backends_witness :
    dictGet [("strict", Value.list []),
             ("backends", Value.dict [("http", Value.str "requests"),
                                      ("mqtt", Value.str "custom")])] "backends"
      = some (Value.dict [("http", Value.str "requests"),
                          ("mqtt", Value.str "custom")]) :=
  ((load_global_cfg_backends trivialCollaborators backendConfig rfl rfl (by decide)
      (Or.inl (by decide)) (Or.inr (by decide))).2
    [("strict", Value.list []),
     ("backends", Value.dict [("http", Value.str "requests"),
                              ("mqtt", Value.str "custom")])]
    [⟨LogLevel.debug, "Nothing to format in global config files"⟩,
     ⟨LogLevel.debug, "Global config: %s"⟩]
    (by decide)).trans (by decide)

/-- C5: when the merged document has a `variables` key its value is
replaced by the external formatter applied to it and to a context
exposing the process environment under the fixed `tavern.env_vars`
namespace; when the key is absent no substitution happens, the call
still succeeds, and the skip is logged at debug level. -/
theorem load_global_cfg_variables (co : Collaborators) (c : PytestConfig)
    (paths : List Value) (hp : collect_paths c = Except.ok paths)
    (hstrict : check_strict (get_option_generic c "tavern-strict" (Value.list []))
      = Except.ok ()) :
    (∀ v, dictGet (co.load_global_config paths) "variables" = some v →
       ∀ d logs, load_global_cfg_impl co c = Except.ok (d, logs) →
         dictGet d "variables" = some (co.format_keys v (tavern_box co.environ)) ∧
         (⟨LogLevel.debug, "Nothing to format in global config files"⟩ : LogEntry)
           ∉ logs) ∧
    (dictGet (co.load_global_config paths) "variables" = Option.none →
       isOk (load_global_cfg_impl co c) = true ∧
       (∀ d logs, load_global_cfg_impl co c = Except.ok (d, logs) →
         dictGet d "variables" = Option.none ∧
         (⟨LogLevel.debug, "Nothing to format in global config files"⟩ : LogEntry)
           ∈ logs)) := by
  rw [load_global_cfg_impl_eq co c paths hp, load_global_cfg_rest_of_ok co c _ hstrict]
  constructor
  · intro v hv d logs h
    have hfv : format_variables co (co.load_global_config paths)
        = (dictSet (co.load_global_config paths) "variables"
            (co.format_keys v (tavern_box co.environ)), []) := by
      unfold format_variables
      rw [hv]
    rw [hfv] at h
    injection h with h'
    injection h' with hd hl
    subst hd
    subst hl
    constructor
    · rw [dictGet_dictSet_other _ _ _ _ (by decide),
        dictGet_dictSet_other _ _ _ _ (by decide),
        dictGet_dictSet_same]
    · show (⟨LogLevel.debug, "Nothing to format in global config files"⟩ : LogEntry)
          ∉ ([] : List LogEntry) ++ [(⟨LogLevel.debug, "Global config: %s"⟩ : LogEntry)]
      decide
  · intro hv
    have hfv : format_variables co (co.load_global_config paths)
        = (co.load_global_config paths,
           [⟨LogLevel.debug, "Nothing to format in global config files"⟩]) := by
      unfold format_variables
      rw [hv]
    constructor
    · rfl
    · intro d logs h
      rw [hfv] at h
      injection h with h'
      injection h' with hd hl
      subst hd
      subst hl
      constructor
      · rw [dictGet_dictSet_other _ _ _ _ (by decide),
          dictGet_dictSet_other _ _ _ _ (by decide)]
        exact hv
      · show (⟨LogLevel.debug, "Nothing to format in global config files"⟩ : LogEntry)
            ∈ [(⟨LogLevel.debug, "Nothing to format in global config files"⟩ : LogEntry)]
              ++ [(⟨LogLevel.debug, "Global config: %s"⟩ : LogEntry)]
        decide

/-- Collaborators whose loader produces a document with a `variables`
key, whose formatter pairs its two arguments, and with one environment
variable. -/
def varsCollaborators : Collaborators :=
  { load_global_config := fun _ => [("variables", Value.dict [("a", Value.str "b")])],
    format_keys := fun v ctx => Value.list [v, ctx],
    environ := [("HOME", "/root")] }

/-- Collaborators whose loader produces a document without a
`variables` key. -/
def otherKeyCollaborators : Collaborators :=
  { load_global_config := fun _ => [("other", Value.int 1)],
    format_keys := fun v _ => v,
    environ := [] }

/-- Concrete instantiation of both variables-substitution branches:
with the key present the formatter output (fed the environment box)
lands under `variables` and nothing is logged about skipping; with the
key absent the key stays absent and the skip message is logged. -/
theorem load_global_cfg_variables_witness :
    (dictGet [("variables", Value.list [Value.dict [("a", Value.str "b")],
                                        tavern_box [("HOME", "/root")]]),
              ("strict", Value.list []),
              ("backends", Value.dict [("http", Value.none), ("mqtt", Value.none)])]
        "variables"
      = some (Value.list [Value.dict [("a", Value.str "b")],
                          tavern_box [("HOME", "/root")]]) ∧
     (⟨LogLevel.debug, "Nothing to format in global config files"⟩ : LogEntry)
       ∉ [(⟨LogLevel.debug, "Global config: %s"⟩ : LogEntry)]) ∧
    (dictGet [("other", Value.int 1), ("strict", Value.list []),
              ("backends", Value.dict [("http", Value.none), ("mqtt", Value.none)])]
        "variables" = Option.none ∧
     (⟨LogLevel.debug, "Nothing to format in global config files"⟩ : LogEntry)
       ∈ [(⟨LogLevel.debug, "Nothing to format in global config files"⟩ : LogEntry),
          (⟨LogLevel.debug, "Global config: %s"⟩ : LogEntry)]) :=
  ⟨(load_global_cfg_variables varsCollaborators emptyConfig [] rfl (by decide)).1
      (Value.dict [("a", Value.str "b")]) (by decide)
      [("variables", Value.list [Value.dict [("a", Value.str "b")],
                                 tavern_box [("HOME", "/root")]]),
       ("strict", Value.list []),
       ("backends", Value.dict [("http", Value.none), ("mqtt", Value.none)])]
      [⟨LogLevel.debug, "Global config: %s"⟩] (by decide),
   ((load_global_cfg_variables otherKeyCollaborators emptyConfig [] rfl (by decide)).2
      (by decide)).2
      [("other", Value.int 1), ("strict", Value.list []),
       ("backends", Value.dict [("http", Value.none), ("mqtt", Value.none)])]
      [⟨LogLevel.debug, "Nothing to format in global config files"⟩,
       ⟨LogLevel.debug, "Global config: %s"⟩] (by decide)⟩

/-- C8: apart from the keys `variables`, `strict` and `backends`,
every key of the loader-produced merged document maps to the same
value in the returned settings object. -/
theorem load_global_cfg_frame (co : Collaborators) (c : PytestConfig)
    (paths : List Value) (hp : collect_paths c = Except.ok paths)
    (d : List (String × Value)) (logs : List LogEntry)
    (hres : load_global_cfg_impl co c = Except.ok (d, logs))
    (k : String) (hk1 : k ≠ "variables") (hk2 : k ≠ "strict") (hk3 : k ≠ "backends") :
    dictGet d k = dictGet (co.load_global_config paths) k := by
  rw [load_global_cfg_impl_eq co c paths hp] at hres
  cases hcs : check_strict (get_option_generic c "tavern-strict" (Value.list [])) with
  | error e =>
      rw [load_global_cfg_rest_of_error co c _ e hcs] at hres
      exact Except.noConfusion hres
  | ok u =>
      cases u
      rw [load_global_cfg_rest_of_ok co c _ hcs] at hres
      injection hres with h'
      injection h' with hd hl
      subst hd
      rw [dictGet_dictSet_other _ _ _ _ hk3, dictGet_dictSet_other _ _ _ _ hk2]
      unfold format_variables
      cases hv : dictGet (co.load_global_config paths) "variables" with
      | none => rfl
      | some v => exact dictGet_dictSet_other _ _ _ _ hk1

/-- Concrete instantiation: the unrelated key `other` survives the
loader post-processing unchanged. -/
theorem load_global_cfg_frame_witness :
    dictGet [("other", Value.int 1), ("strict", Value.list []),
             ("backends", Value.dict [("http", Value.none), ("mqtt", Value.none)])]
        "other"
      = some (Value.int 1) :=
  (load_global_cfg_frame otherKeyCollaborators emptyConfig [] rfl
      [("other", Value.int 1), ("strict", Value.list []),
       ("backends", Value.dict [("http", Value.none), ("mqtt", Value.none)])]
      [⟨LogLevel.debug, "Nothing to format in global config files"⟩,
       ⟨LogLevel.debug, "Global config: %s"⟩]
      (by decide) "other" (by decide) (by decide) (by decide)).trans (by decide)

end Tavern
